import Mathlib

/-!
Verification of the BCM2835 Unicam camera interface driver
(`drivers/media/platform/bcm2835/bcm2835-unicam.c`), shallowly embedded in
Lean 4.  Pure helpers of the driver are translated to Lean functions; the
interrupt handler and the stream lifecycle are modelled as functions on an
explicit device state.  Sub-device calls (`v4l2_subdev_call ... enum_mbus_code`)
are modelled as a function from the queried index to either an error code or a
media-bus code.
-/

namespace Unicam

/-! ## Constants

`v4l2_fourcc(a, b, c, d)` packs four characters into a 32-bit pixel-format
identifier (uapi `videodev2.h`).  The media-bus codes are the standard values
of `media-bus-format.h`.  Both headers are outside the driver source; only the
values (and their distinctness) matter here. -/

def v4l2_fourcc (a b c d : Char) : Nat :=
  a.toNat + b.toNat * 256 + c.toNat * 65536 + d.toNat * 16777216

def V4L2_PIX_FMT_YUYV : Nat := v4l2_fourcc 'Y' 'U' 'Y' 'V'
def V4L2_PIX_FMT_UYVY : Nat := v4l2_fourcc 'U' 'Y' 'V' 'Y'
def V4L2_PIX_FMT_YVYU : Nat := v4l2_fourcc 'Y' 'V' 'Y' 'U'
def V4L2_PIX_FMT_VYUY : Nat := v4l2_fourcc 'V' 'Y' 'U' 'Y'
def V4L2_PIX_FMT_RGB565 : Nat := v4l2_fourcc 'R' 'G' 'B' 'P'
def V4L2_PIX_FMT_RGB565X : Nat := v4l2_fourcc 'R' 'G' 'B' 'R'
def V4L2_PIX_FMT_RGB555 : Nat := v4l2_fourcc 'R' 'G' 'B' 'O'
def V4L2_PIX_FMT_RGB555X : Nat := v4l2_fourcc 'R' 'G' 'B' 'Q'
def V4L2_PIX_FMT_RGB24 : Nat := v4l2_fourcc 'R' 'G' 'B' '3'
def V4L2_PIX_FMT_BGR24 : Nat := v4l2_fourcc 'B' 'G' 'R' '3'
def V4L2_PIX_FMT_RGB32 : Nat := v4l2_fourcc 'R' 'G' 'B' '4'
def V4L2_PIX_FMT_SBGGR8 : Nat := v4l2_fourcc 'B' 'A' '8' '1'
def V4L2_PIX_FMT_SGBRG8 : Nat := v4l2_fourcc 'G' 'B' 'R' 'G'
def V4L2_PIX_FMT_SGRBG8 : Nat := v4l2_fourcc 'G' 'R' 'B' 'G'
def V4L2_PIX_FMT_SRGGB8 : Nat := v4l2_fourcc 'R' 'G' 'G' 'B'
def V4L2_PIX_FMT_SBGGR10P : Nat := v4l2_fourcc 'p' 'B' 'A' 'A'
def V4L2_PIX_FMT_SGBRG10P : Nat := v4l2_fourcc 'p' 'G' 'A' 'A'
def V4L2_PIX_FMT_SGRBG10P : Nat := v4l2_fourcc 'p' 'g' 'A' 'A'
def V4L2_PIX_FMT_SRGGB10P : Nat := v4l2_fourcc 'p' 'R' 'A' 'A'
def V4L2_PIX_FMT_SBGGR10 : Nat := v4l2_fourcc 'B' 'G' '1' '0'
def V4L2_PIX_FMT_SGBRG10 : Nat := v4l2_fourcc 'G' 'B' '1' '0'
def V4L2_PIX_FMT_SGRBG10 : Nat := v4l2_fourcc 'B' 'A' '1' '0'
def V4L2_PIX_FMT_SRGGB10 : Nat := v4l2_fourcc 'R' 'G' '1' '0'
def V4L2_PIX_FMT_SBGGR12P : Nat := v4l2_fourcc 'p' 'B' 'C' 'C'
def V4L2_PIX_FMT_SGBRG12P : Nat := v4l2_fourcc 'p' 'G' 'C' 'C'
def V4L2_PIX_FMT_SGRBG12P : Nat := v4l2_fourcc 'p' 'g' 'C' 'C'
def V4L2_PIX_FMT_SRGGB12P : Nat := v4l2_fourcc 'p' 'R' 'C' 'C'
def V4L2_PIX_FMT_SBGGR12 : Nat := v4l2_fourcc 'B' 'G' '1' '2'
def V4L2_PIX_FMT_SGBRG12 : Nat := v4l2_fourcc 'G' 'B' '1' '2'
def V4L2_PIX_FMT_SGRBG12 : Nat := v4l2_fourcc 'B' 'A' '1' '2'
def V4L2_PIX_FMT_SRGGB12 : Nat := v4l2_fourcc 'R' 'G' '1' '2'
def V4L2_PIX_FMT_SBGGR14P : Nat := v4l2_fourcc 'p' 'B' 'E' 'E'
def V4L2_PIX_FMT_SGBRG14P : Nat := v4l2_fourcc 'p' 'G' 'E' 'E'
def V4L2_PIX_FMT_SGRBG14P : Nat := v4l2_fourcc 'p' 'g' 'E' 'E'
def V4L2_PIX_FMT_SRGGB14P : Nat := v4l2_fourcc 'p' 'R' 'E' 'E'
def V4L2_PIX_FMT_GREY : Nat := v4l2_fourcc 'G' 'R' 'E' 'Y'
def V4L2_PIX_FMT_Y10P : Nat := v4l2_fourcc 'Y' '1' '0' 'P'
def V4L2_PIX_FMT_Y10 : Nat := v4l2_fourcc 'Y' '1' '0' ' '
def V4L2_PIX_FMT_Y12 : Nat := v4l2_fourcc 'Y' '1' '2' ' '

def MEDIA_BUS_FMT_YUYV8_2X8 : Nat := 0x2008
def MEDIA_BUS_FMT_UYVY8_2X8 : Nat := 0x2006
def MEDIA_BUS_FMT_YVYU8_2X8 : Nat := 0x2009
def MEDIA_BUS_FMT_VYUY8_2X8 : Nat := 0x2007
def MEDIA_BUS_FMT_YUYV8_1X16 : Nat := 0x2011
def MEDIA_BUS_FMT_UYVY8_1X16 : Nat := 0x200f
def MEDIA_BUS_FMT_YVYU8_1X16 : Nat := 0x2012
def MEDIA_BUS_FMT_VYUY8_1X16 : Nat := 0x2010
def MEDIA_BUS_FMT_RGB565_2X8_LE : Nat := 0x1008
def MEDIA_BUS_FMT_RGB565_2X8_BE : Nat := 0x1007
def MEDIA_BUS_FMT_RGB555_2X8_PADHI_LE : Nat := 0x1004
def MEDIA_BUS_FMT_RGB555_2X8_PADHI_BE : Nat := 0x1003
def MEDIA_BUS_FMT_RGB888_1X24 : Nat := 0x100a
def MEDIA_BUS_FMT_BGR888_1X24 : Nat := 0x1013
def MEDIA_BUS_FMT_ARGB8888_1X32 : Nat := 0x100d
def MEDIA_BUS_FMT_SBGGR8_1X8 : Nat := 0x3001
def MEDIA_BUS_FMT_SGBRG8_1X8 : Nat := 0x3013
def MEDIA_BUS_FMT_SGRBG8_1X8 : Nat := 0x3002
def MEDIA_BUS_FMT_SRGGB8_1X8 : Nat := 0x3014
def MEDIA_BUS_FMT_SBGGR10_1X10 : Nat := 0x3007
def MEDIA_BUS_FMT_SGBRG10_1X10 : Nat := 0x300e
def MEDIA_BUS_FMT_SGRBG10_1X10 : Nat := 0x300a
def MEDIA_BUS_FMT_SRGGB10_1X10 : Nat := 0x300f
def MEDIA_BUS_FMT_SBGGR12_1X12 : Nat := 0x3008
def MEDIA_BUS_FMT_SGBRG12_1X12 : Nat := 0x3010
def MEDIA_BUS_FMT_SGRBG12_1X12 : Nat := 0x3011
def MEDIA_BUS_FMT_SRGGB12_1X12 : Nat := 0x3012
def MEDIA_BUS_FMT_SBGGR14_1X14 : Nat := 0x3019
def MEDIA_BUS_FMT_SGBRG14_1X14 : Nat := 0x301a
def MEDIA_BUS_FMT_SGRBG14_1X14 : Nat := 0x301b
def MEDIA_BUS_FMT_SRGGB14_1X14 : Nat := 0x301c
def MEDIA_BUS_FMT_Y8_1X8 : Nat := 0x2001
def MEDIA_BUS_FMT_Y10_1X10 : Nat := 0x200a
def MEDIA_BUS_FMT_Y12_1X12 : Nat := 0x2013

/-- `#define MAX_ENUM_MBUS_CODE 128` -/
def MAX_ENUM_MBUS_CODE : Nat := 128

/-- `#define BPL_ALIGNMENT 16` -/
def BPL_ALIGNMENT : Nat := 16

/-- `#define MAX_BYTESPERLINE ((1 << 16) - BPL_ALIGNMENT)` -/
def MAX_BYTESPERLINE : Nat := 65536 - BPL_ALIGNMENT

/-- `#define MAX_WIDTH (MAX_BYTESPERLINE / 4)` -/
def MAX_WIDTH : Nat := MAX_BYTESPERLINE / 4

/-- `#define MAX_HEIGHT MAX_WIDTH` -/
def MAX_HEIGHT : Nat := MAX_WIDTH

def MIN_WIDTH : Nat := 16
def MIN_HEIGHT : Nat := 16

/-- `#define HEIGHT_ALIGNMENT 16` -/
def HEIGHT_ALIGNMENT : Nat := 16

/-! ## Format registry (`struct unicam_fmt` and the `formats[]` table) -/

/-- `struct unicam_fmt`.  A `fourcc` or `repacked_fourcc` of `0` means "n/a",
exactly as in the C initialisers. -/
structure UnicamFmt where
  fourcc : Nat
  repacked_fourcc : Nat
  code : Nat
  depth : Nat
  csi_dt : Nat
  check_variants : Bool
deriving DecidableEq, Repr

/-- The static `formats[]` table, entry for entry. -/
def formats : List UnicamFmt := [
  ⟨V4L2_PIX_FMT_YUYV, 0, MEDIA_BUS_FMT_YUYV8_2X8, 16, 0x1e, true⟩,
  ⟨V4L2_PIX_FMT_UYVY, 0, MEDIA_BUS_FMT_UYVY8_2X8, 16, 0x1e, true⟩,
  ⟨V4L2_PIX_FMT_YVYU, 0, MEDIA_BUS_FMT_YVYU8_2X8, 16, 0x1e, true⟩,
  ⟨V4L2_PIX_FMT_VYUY, 0, MEDIA_BUS_FMT_VYUY8_2X8, 16, 0x1e, true⟩,
  ⟨V4L2_PIX_FMT_YUYV, 0, MEDIA_BUS_FMT_YUYV8_1X16, 16, 0x1e, false⟩,
  ⟨V4L2_PIX_FMT_UYVY, 0, MEDIA_BUS_FMT_UYVY8_1X16, 16, 0x1e, false⟩,
  ⟨V4L2_PIX_FMT_YVYU, 0, MEDIA_BUS_FMT_YVYU8_1X16, 16, 0x1e, false⟩,
  ⟨V4L2_PIX_FMT_VYUY, 0, MEDIA_BUS_FMT_VYUY8_1X16, 16, 0x1e, false⟩,
  ⟨V4L2_PIX_FMT_RGB565, 0, MEDIA_BUS_FMT_RGB565_2X8_LE, 16, 0x22, false⟩,
  ⟨V4L2_PIX_FMT_RGB565X, 0, MEDIA_BUS_FMT_RGB565_2X8_BE, 16, 0x22, false⟩,
  ⟨V4L2_PIX_FMT_RGB555, 0, MEDIA_BUS_FMT_RGB555_2X8_PADHI_LE, 16, 0x21, false⟩,
  ⟨V4L2_PIX_FMT_RGB555X, 0, MEDIA_BUS_FMT_RGB555_2X8_PADHI_BE, 16, 0x21, false⟩,
  ⟨V4L2_PIX_FMT_RGB24, 0, MEDIA_BUS_FMT_RGB888_1X24, 24, 0x24, false⟩,
  ⟨V4L2_PIX_FMT_BGR24, 0, MEDIA_BUS_FMT_BGR888_1X24, 24, 0x24, false⟩,
  ⟨V4L2_PIX_FMT_RGB32, 0, MEDIA_BUS_FMT_ARGB8888_1X32, 32, 0x0, false⟩,
  ⟨V4L2_PIX_FMT_SBGGR8, 0, MEDIA_BUS_FMT_SBGGR8_1X8, 8, 0x2a, false⟩,
  ⟨V4L2_PIX_FMT_SGBRG8, 0, MEDIA_BUS_FMT_SGBRG8_1X8, 8, 0x2a, false⟩,
  ⟨V4L2_PIX_FMT_SGRBG8, 0, MEDIA_BUS_FMT_SGRBG8_1X8, 8, 0x2a, false⟩,
  ⟨V4L2_PIX_FMT_SRGGB8, 0, MEDIA_BUS_FMT_SRGGB8_1X8, 8, 0x2a, false⟩,
  ⟨V4L2_PIX_FMT_SBGGR10P, V4L2_PIX_FMT_SBGGR10, MEDIA_BUS_FMT_SBGGR10_1X10, 10, 0x2b, false⟩,
  ⟨V4L2_PIX_FMT_SGBRG10P, V4L2_PIX_FMT_SGBRG10, MEDIA_BUS_FMT_SGBRG10_1X10, 10, 0x2b, false⟩,
  ⟨V4L2_PIX_FMT_SGRBG10P, V4L2_PIX_FMT_SGRBG10, MEDIA_BUS_FMT_SGRBG10_1X10, 10, 0x2b, false⟩,
  ⟨V4L2_PIX_FMT_SRGGB10P, V4L2_PIX_FMT_SRGGB10, MEDIA_BUS_FMT_SRGGB10_1X10, 10, 0x2b, false⟩,
  ⟨V4L2_PIX_FMT_SBGGR12P, V4L2_PIX_FMT_SBGGR12, MEDIA_BUS_FMT_SBGGR12_1X12, 12, 0x2c, false⟩,
  ⟨V4L2_PIX_FMT_SGBRG12P, V4L2_PIX_FMT_SGBRG12, MEDIA_BUS_FMT_SGBRG12_1X12, 12, 0x2c, false⟩,
  ⟨V4L2_PIX_FMT_SGRBG12P, V4L2_PIX_FMT_SGRBG12, MEDIA_BUS_FMT_SGRBG12_1X12, 12, 0x2c, false⟩,
  ⟨V4L2_PIX_FMT_SRGGB12P, V4L2_PIX_FMT_SRGGB12, MEDIA_BUS_FMT_SRGGB12_1X12, 12, 0x2c, false⟩,
  ⟨V4L2_PIX_FMT_SBGGR14P, 0, MEDIA_BUS_FMT_SBGGR14_1X14, 14, 0x2d, false⟩,
  ⟨V4L2_PIX_FMT_SGBRG14P, 0, MEDIA_BUS_FMT_SGBRG14_1X14, 14, 0x2d, false⟩,
  ⟨V4L2_PIX_FMT_SGRBG14P, 0, MEDIA_BUS_FMT_SGRBG14_1X14, 14, 0x2d, false⟩,
  ⟨V4L2_PIX_FMT_SRGGB14P, 0, MEDIA_BUS_FMT_SRGGB14_1X14, 14, 0x2d, false⟩,
  ⟨V4L2_PIX_FMT_GREY, 0, MEDIA_BUS_FMT_Y8_1X8, 8, 0x2a, false⟩,
  ⟨V4L2_PIX_FMT_Y10P, V4L2_PIX_FMT_Y10, MEDIA_BUS_FMT_Y10_1X10, 10, 0x2b, false⟩,
  ⟨0, V4L2_PIX_FMT_Y12, MEDIA_BUS_FMT_Y12_1X12, 12, 0x2c, false⟩]

/-- Result of a `v4l2_subdev_call(sensor, pad, enum_mbus_code, ...)`:
either a negative errno or the media-bus code filled in at that index. -/
def SubdevEnum := Nat → Except Int Nat

/-- `find_format_by_code`: scan the table for a matching media-bus code. -/
def find_format_by_code (code : Nat) : Option UnicamFmt :=
  formats.find? (fun f => f.code = code)

/-- The bounded scan of `check_mbus_format`: starting at index `i` with
`fuel` iterations remaining, query the source and report whether it produced
`code`.  A source error ends the scan (the C loop condition `!ret`). -/
def check_mbus_from (enum : SubdevEnum) (code : Nat) : Nat → Nat → Bool
  | 0, _ => false
  | fuel + 1, i =>
    match enum i with
    | .ok c => if c = code then true else check_mbus_from enum code fuel (i + 1)
    | .error _ => false

/-- `check_mbus_format`: query the source for at most `MAX_ENUM_MBUS_CODE`
media-bus codes, returning true iff one of them equals `format.code`. -/
def check_mbus_format (enum : SubdevEnum) (format : UnicamFmt) : Bool :=
  check_mbus_from enum format.code MAX_ENUM_MBUS_CODE 0

/-- The loop body of `find_format_by_pix`, generic in the remaining table:
take the first entry whose `fourcc` or `repacked_fourcc` matches, but skip
(`continue`) entries with `check_variants` set whose `check_mbus_format`
query fails. -/
def find_format_by_pix_from (enum : SubdevEnum) (pixelformat : Nat) :
    List UnicamFmt → Option UnicamFmt
  | [] => none
  | f :: rest =>
    if f.fourcc = pixelformat ∨ f.repacked_fourcc = pixelformat then
      if f.check_variants ∧ check_mbus_format enum f = false then
        find_format_by_pix_from enum pixelformat rest
      else
        some f
    else
      find_format_by_pix_from enum pixelformat rest

/-- `find_format_by_pix` over the static `formats[]` table. -/
def find_format_by_pix (enum : SubdevEnum) (pixelformat : Nat) : Option UnicamFmt :=
  find_format_by_pix_from enum pixelformat formats

/-- `get_first_supported_format`, fuel-indexed.  The C loop is
`for (j = 0; ret != -EINVAL && ret != -ENOIOCTLCMD; ++j)` with `int ret;`
READ UNINITIALISED on the first test, and no bound on `j` (unlike
`check_mbus_format`'s `MAX_ENUM_MBUS_CODE` cap).  `ret` holds the initial
(indeterminate) value of the C variable for the first loop test; `fuel`
bounds the number of loop iterations we are willing to unfold: `none` means
the loop has not terminated within `fuel` iterations, `some r` means it
returned `r` (`r = none` models returning the C `NULL`). -/
def get_first_supported_format_fuel (enum : SubdevEnum) :
    Nat → Nat → Int → Option (Option UnicamFmt)
  | 0, _, _ => none
  | fuel + 1, j, ret =>
    if ret = -22 ∨ ret = -515 then some none
    else
      match enum j with
      | .error e => get_first_supported_format_fuel enum fuel (j + 1) e
      | .ok code =>
        match find_format_by_code code with
        | some f => some (some f)
        | none => get_first_supported_format_fuel enum fuel (j + 1) 0

/-! ## Layout calculation (`bytes_per_line`, `unicam_calc_format_size_bpl`) -/

/-- The kernel `ALIGN(x, a)` macro, `(x + a - 1) & ~(a - 1)`, for the
power-of-two alignments used here this equals rounding up to a multiple. -/
def ALIGN (x a : Nat) : Nat := (x + a - 1) / a * a

/-- `bytes_per_line`: minimum stride for `width` pixels.  Repacking always
expands to 16 bits per pixel (`width << 1`); otherwise
`(width * fmt->depth) >> 3` (note the truncating shift). -/
def bytes_per_line (width : Nat) (fmt : UnicamFmt) (v4l2_fourcc : Nat) : Nat :=
  if v4l2_fourcc = fmt.repacked_fourcc then
    ALIGN (width * 2) BPL_ALIGNMENT
  else
    ALIGN (width * fmt.depth / 8) BPL_ALIGNMENT

/-- The mutable fields of `struct v4l2_format.fmt.pix` the driver uses. -/
structure PixFormat where
  width : Nat
  height : Nat
  pixelformat : Nat
  bytesperline : Nat
  sizeimage : Nat
deriving DecidableEq, Repr

/-- Modelled from the spec: `v4l_bound_align_image` (a V4L2 core helper, not
under src/) applied to the width, per the spec's LayoutCalculator: "Clamps
width/height to declared min/max bounds (minimum 16x16, maximum derived from
the largest representable stride at 4 bytes/pixel), rounds width to an even
boundary." -/
def bound_width (w : Nat) : Nat :=
  let w := min (max w MIN_WIDTH) MAX_WIDTH
  w - w % 2

/-- Modelled from the spec: the height half of `v4l_bound_align_image`
(clamping only, no alignment requested by the driver). -/
def bound_height (h : Nat) : Nat := min (max h MIN_HEIGHT) MAX_HEIGHT

/-- `unicam_calc_format_size_bpl`: bound/align the image size, compute the
minimum stride, honour a caller-requested `bytesperline` only when it is
larger than the minimum and at most `MAX_BYTESPERLINE` (aligning it up),
and derive `sizeimage` with the height aligned up. -/
def unicam_calc_format_size_bpl (fmt : UnicamFmt) (f : PixFormat) : PixFormat :=
  let width := bound_width f.width
  let height := bound_height f.height
  let min_bytesperline := bytes_per_line width fmt f.pixelformat
  let bytesperline :=
    if min_bytesperline < f.bytesperline ∧ f.bytesperline ≤ MAX_BYTESPERLINE then
      ALIGN f.bytesperline BPL_ALIGNMENT
    else
      min_bytesperline
  { f with
    width := width
    height := height
    bytesperline := bytesperline
    sizeimage := ALIGN height HEIGHT_ALIGNMENT * bytesperline }

/-! ## Buffers, scheduler state and the interrupt handler -/

/-- A `struct unicam_buffer`: an opaque identity plus the DMA address
`vb2_dma_contig_plane_dma_addr` reports for it. -/
structure Buffer where
  id : Nat
  addr : Nat
deriving DecidableEq, Repr

/-- The `vb2_buffer_done` states the driver uses. -/
inductive BufState where
  | done
  | error
  | queued
deriving DecidableEq, Repr

/-- One `vb2_buffer_done` call: which buffer, with which state, and — for the
`DONE` path, which sets `vb.sequence` just before — the sequence number. -/
structure Completion where
  buf : Buffer
  bstate : BufState
  seq : Option Nat
deriving DecidableEq, Repr

/-- The scheduler-relevant fields of `struct unicam_device`.  `dmaAddr` is
the last address written to `UNICAM_IBSA0` via `unicam_wr_dma_addr`;
`lastTs` records the buffer last stamped with a frame-start timestamp;
`triggerMode` is the `UNICAM_FCM` bit of `UNICAM_ICTL`; `completions` is the
outward-visible trace of `vb2_buffer_done` calls, in order. -/
structure UnicamState where
  streaming : Bool
  cur_frm : Option Buffer
  next_frm : Option Buffer
  queue : List Buffer
  sequence : Nat
  completions : List Completion
  dmaAddr : Option Nat
  lastTs : Option Buffer
  triggerMode : Bool
deriving DecidableEq, Repr

/-- `unicam_schedule_next_buffer`: pop the head of the DMA queue into
`next_frm` and program its address.  Only called with a non-empty queue
(the guard is in the ISR); on the impossible empty queue it is the identity. -/
def unicam_schedule_next_buffer (st : UnicamState) : UnicamState :=
  match st.queue with
  | [] => st
  | b :: rest =>
    { st with next_frm := some b, queue := rest, dmaAddr := some b.addr }

/-- `unicam_process_buffer_complete`: report `cur_frm` as `DONE` with the
post-incremented sequence number and promote `next_frm` into `cur_frm`.
Only called with `cur_frm` non-NULL (the guard is in the ISR). -/
def unicam_process_buffer_complete (st : UnicamState) : UnicamState :=
  match st.cur_frm with
  | none => st
  | some c =>
    { st with
      completions := st.completions ++ [⟨c, BufState.done, some st.sequence⟩]
      sequence := st.sequence + 1
      cur_frm := st.next_frm }

/-- The outcome of the mask tests the ISR performs on the `UNICAM_STA` and
`UNICAM_ISTA` status registers.  The bit masks themselves live in
`vc4-regs-unicam.h` (not under src/); per the spec the bits are independent,
so the ISR is embedded over the boolean outcome of each test.  `pi0` is
`sta & UNICAM_PI0`; `staOther` is whether any other `UNICAM_STA` bit is set;
`fsi`, `fei`, `lci` are the `UNICAM_ISTA` tests. -/
structure IrqStatus where
  pi0 : Bool
  staOther : Bool
  fsi : Bool
  fei : Bool
  lci : Bool
deriving DecidableEq, Repr

/-- Frame-start handling: stamp `cur_frm` with the capture timestamp
(recorded here as `lastTs`).  No buffer movement. -/
def isrTimestamp (s : IrqStatus) (st : UnicamState) : UnicamState :=
  if s.fsi = true ∧ st.cur_frm.isSome then { st with lastTs := st.cur_frm } else st

/-- Frame-end handling (`ista & UNICAM_FEI || sta & UNICAM_PI0`): complete
`cur_frm` only when it is non-NULL and differs from `next_frm`; otherwise the
frame is dropped in place. -/
def isrFrameEnd (s : IrqStatus) (st : UnicamState) : UnicamState :=
  if (s.fei || s.pi0) = true ∧ st.cur_frm ≠ none ∧ st.cur_frm ≠ st.next_frm then
    unicam_process_buffer_complete st
  else st

/-- Starvation recovery (`ista & (UNICAM_FSI | UNICAM_LCI)`): when the two
slots alias and the queue is non-empty, pull a new buffer into `next_frm`. -/
def isrSchedule (s : IrqStatus) (st : UnicamState) : UnicamState :=
  if (s.fsi || s.lci) = true ∧ st.queue ≠ [] ∧ st.cur_frm = st.next_frm then
    unicam_schedule_next_buffer st
  else st

/-- One-shot exit from trigger mode: if `UNICAM_FCM` is still set, clear it
(the `UNICAM_TFC` strobe write is hardware-only). -/
def isrTrigger (st : UnicamState) : UnicamState :=
  if st.triggerMode = true then { st with triggerMode := false } else st

/-- `unicam_isr`.  A no-op unless `streaming`; the early-out
`if (!(sta && (UNICAM_IS | UNICAM_PI0)))` degenerates (because of the `&&`)
to a test that `sta` is non-zero, i.e. that some `UNICAM_STA` bit is set. -/
def unicam_isr (st : UnicamState) (s : IrqStatus) : UnicamState :=
  if st.streaming = false then st
  else if (s.pi0 || s.staOther) = false then st
  else isrTrigger (isrSchedule s (isrFrameEnd s (isrTimestamp s st)))

/-- `unicam_buffer_queue`: the consumer submits a buffer; it is appended to
the tail of the DMA queue. -/
def unicam_buffer_queue (st : UnicamState) (b : Buffer) : UnicamState :=
  { st with queue := st.queue ++ [b] }

/-- An error returned by stream start. -/
inductive StartError where
  | underrun
deriving DecidableEq, Repr

/-- The buffer bookkeeping of `unicam_start_streaming` on the successful
path: pop exactly one buffer off the head of the DMA queue and let BOTH
`cur_frm` and `next_frm` point at it, zero the sequence counter, program its
DMA address (`unicam_start_rx` / `unicam_wr_dma_addr`) and start in trigger
mode (`UNICAM_FCM`).  The lane/clock/sub-device register programming has no
effect on the buffer state and is elided. -/
def streamStartState (b : Buffer) (rest : List Buffer) : UnicamState :=
  { streaming := true
    cur_frm := some b
    next_frm := some b
    queue := rest
    sequence := 0
    completions := []
    dmaAddr := some b.addr
    lastTs := none
    triggerMode := true }

/-- Modelled from the spec: the stream-start entry point.  The gate that
refuses to start with an empty FrameQueue is the videobuf2 core (the driver
sets `q->min_buffers_needed = 2` and vb2 only invokes
`unicam_start_streaming` once buffers are queued); that core is not under
src/, so per the spec "start() requires at least one buffer present in
FrameQueue (fails otherwise with Underrun)" it is modelled as an `underrun`
error on an empty queue, before any hardware state is created. -/
def streamStart (q : List Buffer) : Except StartError UnicamState :=
  match q with
  | [] => Except.error StartError.underrun
  | b :: rest => Except.ok (streamStartState b rest)

/-- `unicam_stop_streaming`: complete every buffer still on the DMA queue
with `ERROR`, then the held slots — once if `cur_frm == next_frm`, else both
— and clear the slots.  (The sub-device stop and `unicam_disable` touch only
hardware; the C never clears `dev->streaming` here and neither does the
model.) -/
def unicam_stop_streaming (st : UnicamState) : UnicamState :=
  let qCompl := st.queue.map fun b => Completion.mk b BufState.error none
  let headCompl :=
    if st.cur_frm = st.next_frm then
      st.cur_frm.toList.map fun c => Completion.mk c BufState.error none
    else
      (st.cur_frm.toList.map fun c => Completion.mk c BufState.error none) ++
      (st.next_frm.toList.map fun c => Completion.mk c BufState.error none)
  { st with
    completions := st.completions ++ qCompl ++ headCompl
    queue := []
    cur_frm := none
    next_frm := none }

/-- Events driving the streaming-phase state: an interrupt, or a buffer
submission arriving from the consumer context. -/
inductive Act where
  | irq (s : IrqStatus)
  | submit (b : Buffer)
deriving DecidableEq, Repr

def step (st : UnicamState) : Act → UnicamState
  | Act.irq s => unicam_isr st s
  | Act.submit b => unicam_buffer_queue st b

def run (st : UnicamState) (acts : List Act) : UnicamState :=
  acts.foldl step st

/-- A frame-end event processed while the slots alias: the interrupt runs,
a frame ended, but no completion can be emitted — the frame is dropped. -/
def frameDropped (st : UnicamState) (s : IrqStatus) : Bool :=
  st.streaming && (s.pi0 || s.staOther) && (s.fei || s.pi0) &&
    (st.cur_frm == st.next_frm) && st.cur_frm.isSome

/-- The sequence numbers of the `DONE` completions of a trace, in order. -/
def doneSeqs (l : List Completion) : List Nat :=
  l.filterMap fun cp => match cp.bstate with
    | BufState.done => cp.seq
    | _ => none

/-! ## Helper lemmas about the interrupt-handler components -/

@[simp] theorem isrTimestamp_cur_frm (s : IrqStatus) (st : UnicamState) :
    (isrTimestamp s st).cur_frm = st.cur_frm := by
  unfold isrTimestamp; split <;> rfl

@[simp] theorem isrTimestamp_next_frm (s : IrqStatus) (st : UnicamState) :
    (isrTimestamp s st).next_frm = st.next_frm := by
  unfold isrTimestamp; split <;> rfl

@[simp] theorem isrTimestamp_queue (s : IrqStatus) (st : UnicamState) :
    (isrTimestamp s st).queue = st.queue := by
  unfold isrTimestamp; split <;> rfl

@[simp] theorem isrTimestamp_completions (s : IrqStatus) (st : UnicamState) :
    (isrTimestamp s st).completions = st.completions := by
  unfold isrTimestamp; split <;> rfl

@[simp] theorem isrTimestamp_sequence (s : IrqStatus) (st : UnicamState) :
    (isrTimestamp s st).sequence = st.sequence := by
  unfold isrTimestamp; split <;> rfl

@[simp] theorem isrTimestamp_streaming (s : IrqStatus) (st : UnicamState) :
    (isrTimestamp s st).streaming = st.streaming := by
  unfold isrTimestamp; split <;> rfl

@[simp] theorem isrTimestamp_dmaAddr (s : IrqStatus) (st : UnicamState) :
    (isrTimestamp s st).dmaAddr = st.dmaAddr := by
  unfold isrTimestamp; split <;> rfl

@[simp] theorem isrFrameEnd_queue (s : IrqStatus) (st : UnicamState) :
    (isrFrameEnd s st).queue = st.queue := by
  unfold isrFrameEnd unicam_process_buffer_complete
  split
  · split <;> rfl
  · rfl

@[simp] theorem isrFrameEnd_next_frm (s : IrqStatus) (st : UnicamState) :
    (isrFrameEnd s st).next_frm = st.next_frm := by
  unfold isrFrameEnd unicam_process_buffer_complete
  split
  · split <;> rfl
  · rfl

@[simp] theorem isrFrameEnd_streaming (s : IrqStatus) (st : UnicamState) :
    (isrFrameEnd s st).streaming = st.streaming := by
  unfold isrFrameEnd unicam_process_buffer_complete
  split
  · split <;> rfl
  · rfl

@[simp] theorem isrFrameEnd_dmaAddr (s : IrqStatus) (st : UnicamState) :
    (isrFrameEnd s st).dmaAddr = st.dmaAddr := by
  unfold isrFrameEnd unicam_process_buffer_complete
  split
  · split <;> rfl
  · rfl

@[simp] theorem isrSchedule_cur_frm (s : IrqStatus) (st : UnicamState) :
    (isrSchedule s st).cur_frm = st.cur_frm := by
  unfold isrSchedule unicam_schedule_next_buffer
  split
  · split <;> rfl
  · rfl

@[simp] theorem isrSchedule_completions (s : IrqStatus) (st : UnicamState) :
    (isrSchedule s st).completions = st.completions := by
  unfold isrSchedule unicam_schedule_next_buffer
  split
  · split <;> rfl
  · rfl

@[simp] theorem isrSchedule_sequence (s : IrqStatus) (st : UnicamState) :
    (isrSchedule s st).sequence = st.sequence := by
  unfold isrSchedule unicam_schedule_next_buffer
  split
  · split <;> rfl
  · rfl

@[simp] theorem isrSchedule_streaming (s : IrqStatus) (st : UnicamState) :
    (isrSchedule s st).streaming = st.streaming := by
  unfold isrSchedule unicam_schedule_next_buffer
  split
  · split <;> rfl
  · rfl

@[simp] theorem isrTrigger_cur_frm (st : UnicamState) :
    (isrTrigger st).cur_frm = st.cur_frm := by
  unfold isrTrigger; split <;> rfl

@[simp] theorem isrTrigger_next_frm (st : UnicamState) :
    (isrTrigger st).next_frm = st.next_frm := by
  unfold isrTrigger; split <;> rfl

@[simp] theorem isrTrigger_queue (st : UnicamState) :
    (isrTrigger st).queue = st.queue := by
  unfold isrTrigger; split <;> rfl

@[simp] theorem isrTrigger_completions (st : UnicamState) :
    (isrTrigger st).completions = st.completions := by
  unfold isrTrigger; split <;> rfl

@[simp] theorem isrTrigger_sequence (st : UnicamState) :
    (isrTrigger st).sequence = st.sequence := by
  unfold isrTrigger; split <;> rfl

@[simp] theorem isrTrigger_streaming (st : UnicamState) :
    (isrTrigger st).streaming = st.streaming := by
  unfold isrTrigger; split <;> rfl

@[simp] theorem isrTrigger_dmaAddr (st : UnicamState) :
    (isrTrigger st).dmaAddr = st.dmaAddr := by
  unfold isrTrigger; split <;> rfl

theorem isrFrameEnd_alias (s : IrqStatus) (st : UnicamState)
    (h : st.cur_frm = st.next_frm) : isrFrameEnd s st = st := by
  unfold isrFrameEnd
  exact if_neg fun hc => hc.2.2 h

theorem isrSchedule_empty (s : IrqStatus) (st : UnicamState)
    (h : st.queue = []) : isrSchedule s st = st := by
  unfold isrSchedule
  exact if_neg fun hc => hc.2.1 h

theorem isrSchedule_pop (s : IrqStatus) (st : UnicamState) (b : Buffer)
    (rest : List Buffer) (hs : (s.fsi || s.lci) = true) (hq : st.queue = b :: rest)
    (halias : st.cur_frm = st.next_frm) :
    isrSchedule s st =
      { st with next_frm := some b, queue := rest, dmaAddr := some b.addr } := by
  unfold isrSchedule
  rw [if_pos ⟨hs, by rw [hq]; exact List.cons_ne_nil b rest, halias⟩]
  unfold unicam_schedule_next_buffer
  rw [hq]

theorem isrFrameEnd_complete (s : IrqStatus) (st : UnicamState) (c : Buffer)
    (hfe : (s.fei || s.pi0) = true) (hcur : st.cur_frm = some c)
    (hne : st.cur_frm ≠ st.next_frm) :
    isrFrameEnd s st =
      { st with
        completions := st.completions ++ [⟨c, BufState.done, some st.sequence⟩]
        sequence := st.sequence + 1
        cur_frm := st.next_frm } := by
  unfold isrFrameEnd
  rw [if_pos ⟨hfe, by rw [hcur]; exact Option.some_ne_none c, hne⟩]
  unfold unicam_process_buffer_complete
  rw [hcur]

theorem isrFrameEnd_shape (s : IrqStatus) (st : UnicamState) :
    isrFrameEnd s st = st ∨
    ∃ c, st.cur_frm = some c ∧
      isrFrameEnd s st =
        { st with
          completions := st.completions ++ [⟨c, BufState.done, some st.sequence⟩]
          sequence := st.sequence + 1
          cur_frm := st.next_frm } := by
  unfold isrFrameEnd
  split
  · next h =>
    right
    obtain ⟨hfe, hcur, hne⟩ := h
    cases hc : st.cur_frm with
    | none => exact absurd hc hcur
    | some c =>
      refine ⟨c, rfl, ?_⟩
      unfold unicam_process_buffer_complete
      rw [hc]
  · left; rfl

theorem unicam_isr_active (st : UnicamState) (s : IrqStatus)
    (hstream : st.streaming = true) (hsta : (s.pi0 || s.staOther) = true) :
    unicam_isr st s = isrTrigger (isrSchedule s (isrFrameEnd s (isrTimestamp s st))) := by
  unfold unicam_isr
  rw [hstream, hsta]
  simp

theorem unicam_isr_not_streaming (st : UnicamState) (s : IrqStatus)
    (hstream : st.streaming = false) : unicam_isr st s = st := by
  unfold unicam_isr
  rw [hstream]
  simp

theorem unicam_isr_sta_zero (st : UnicamState) (s : IrqStatus)
    (hsta : (s.pi0 || s.staOther) = false) : unicam_isr st s = st := by
  unfold unicam_isr
  rw [hsta]
  simp

/-! ## Shared concrete buffers for witnesses and counterexamples -/

def bufA : Buffer := ⟨0, 1000⟩
def bufB : Buffer := ⟨1, 2000⟩
def bufC : Buffer := ⟨2, 3000⟩
def bufD : Buffer := ⟨3, 4000⟩

/-- An interrupt with only the frame-start bit (plus some other `UNICAM_STA`
bit, so the handler does not early-out). -/
def evFrameStart : IrqStatus := ⟨false, true, true, false, false⟩

/-- An interrupt with only the frame-end bit. -/
def evFrameEnd : IrqStatus := ⟨false, true, false, true, false⟩

/-! ## C1: starvation invariant of the interrupt handler -/

/-- C1: whenever a frame-end event is processed while the buffer queue is
empty and the current and next slots hold the same buffer, the handler emits
no buffer completion and leaves the current slot unchanged (`current == next`
holds before and after), without stopping the engine. -/
theorem c1_starvation_invariant (st : UnicamState) (s : IrqStatus) (bu : Buffer)
    (hstream : st.streaming = true) (hq : st.queue = [])
    (hcur : st.cur_frm = some bu) (hnext : st.next_frm = some bu)
    (hfe : (s.fei || s.pi0) = true) :
    (unicam_isr st s).completions = st.completions ∧
    (unicam_isr st s).cur_frm = some bu ∧
    (unicam_isr st s).next_frm = some bu ∧
    (unicam_isr st s).streaming = true := by
  by_cases hsta : (s.pi0 || s.staOther) = true
  · rw [unicam_isr_active st s hstream hsta]
    have halias : (isrTimestamp s st).cur_frm = (isrTimestamp s st).next_frm := by
      rw [isrTimestamp_cur_frm, isrTimestamp_next_frm, hcur, hnext]
    rw [isrFrameEnd_alias s _ halias]
    have hq2 : (isrTimestamp s st).queue = [] := by rw [isrTimestamp_queue, hq]
    rw [isrSchedule_empty s _ hq2]
    simp [hcur, hnext, hstream]
  · rw [unicam_isr_sta_zero st s (by revert hsta; cases (s.pi0 || s.staOther) <;> simp)]
    exact ⟨rfl, hcur, hnext, hstream⟩

/-- C1 witness: a concrete starved state processed by a frame-end interrupt. -/
def c1state : UnicamState :=
  { streaming := true, cur_frm := some bufA, next_frm := some bufA, queue := []
    sequence := 7, completions := [], dmaAddr := some 1000, lastTs := none
    triggerMode := false }

theorem c1_starvation_invariant_witness :
    (unicam_isr c1state evFrameEnd).completions = c1state.completions ∧
    (unicam_isr c1state evFrameEnd).cur_frm = some bufA ∧
    (unicam_isr c1state evFrameEnd).next_frm = some bufA ∧
    (unicam_isr c1state evFrameEnd).streaming = true :=
  c1_starvation_invariant c1state evFrameEnd bufA rfl rfl rfl rfl (by decide)

/-! ## C3: what stream start actually pops -/

/-- C3 counterexample: starting with TWO buffers queued pops only one of
them; the current and next slots are NOT distinct — both hold the first
buffer — and the second buffer is still on the queue. -/
theorem c3_start_two_buffers_counterexample :
    streamStart [bufA, bufB] = Except.ok (streamStartState bufA [bufB]) ∧
    (streamStartState bufA [bufB]).cur_frm = (streamStartState bufA [bufB]).next_frm ∧
    (streamStartState bufA [bufB]).cur_frm = some bufA ∧
    (streamStartState bufA [bufB]).queue = [bufB] := by
  refine ⟨rfl, rfl, rfl, rfl⟩

/-- C3 amended: stream start pops exactly ONE buffer whatever the queue
length, and always begins in the degenerate `current == next` state; the
remaining buffers (a second one included) stay on the queue. -/
theorem c3_start_pops_one_buffer (b : Buffer) (rest : List Buffer) :
    streamStart (b :: rest) = Except.ok (streamStartState b rest) ∧
    (streamStartState b rest).cur_frm = some b ∧
    (streamStartState b rest).next_frm = some b ∧
    (streamStartState b rest).queue = rest ∧
    (streamStartState b rest).sequence = 0 ∧
    (streamStartState b rest).dmaAddr = some b.addr :=
  ⟨rfl, rfl, rfl, rfl, rfl, rfl⟩

/-! ## C4: stream start with an empty queue -/

/-- C4: a stream start with no submitted buffer fails with `Underrun` and
creates no streaming state (the hardware is never programmed). -/
theorem c4_start_empty_queue_underrun :
    streamStart [] = Except.error StartError.underrun := rfl

/-! ## C5 counterexample: a frame-end alone does not recover from starvation -/

/-- A starved state with one freshly submitted buffer waiting. -/
def c5state : UnicamState :=
  { streaming := true, cur_frm := some bufA, next_frm := some bufA, queue := [bufB]
    sequence := 3, completions := [], dmaAddr := some 1000, lastTs := none
    triggerMode := false }

/-- C5 counterexample: with `current == next` and a buffer submitted, an
end-of-frame interrupt — a frame-boundary event — does NOT pop the buffer
into the next slot, does not reprogram the DMA address and emits nothing:
only `UNICAM_FSI | UNICAM_LCI` drives the recovery path. -/
theorem c5_frame_end_no_pop_counterexample :
    (unicam_isr c5state evFrameEnd).next_frm = some bufA ∧
    (unicam_isr c5state evFrameEnd).queue = [bufB] ∧
    (unicam_isr c5state evFrameEnd).dmaAddr = some 1000 ∧
    (unicam_isr c5state evFrameEnd).completions = [] ∧
    bufA ≠ bufB := by
  refine ⟨rfl, rfl, rfl, rfl, by decide⟩

/-! ## C5 amended: starvation recovery via frame-start / line-count events -/

/-- C5 amended: once a buffer is submitted while `current == next`, the very
next frame-START or line-count interrupt pops it into the next slot and
reprograms the DMA address (current, queue tail and completions untouched),
and a subsequent frame-end interrupt completes the old current buffer and
promotes the new one into `current`.  (`a ≠ b`: a buffer held in the slots
is never simultaneously on the queue.) -/
theorem c5_starvation_recovery (st : UnicamState) (s1 s2 : IrqStatus)
    (a b : Buffer) (rest : List Buffer)
    (hstream : st.streaming = true)
    (hcur : st.cur_frm = some a) (hnext : st.next_frm = some a)
    (hq : st.queue = b :: rest) (hab : a ≠ b)
    (hs1 : (s1.fsi || s1.lci) = true) (hsta1 : (s1.pi0 || s1.staOther) = true)
    (hs2 : (s2.fei || s2.pi0) = true) (hsta2 : (s2.pi0 || s2.staOther) = true) :
    (unicam_isr st s1).next_frm = some b ∧
    (unicam_isr st s1).dmaAddr = some b.addr ∧
    (unicam_isr st s1).cur_frm = some a ∧
    (unicam_isr st s1).queue = rest ∧
    (unicam_isr st s1).completions = st.completions ∧
    (unicam_isr (unicam_isr st s1) s2).cur_frm = some b ∧
    (unicam_isr (unicam_isr st s1) s2).completions =
      st.completions ++ [⟨a, BufState.done, some st.sequence⟩] := by
  have hstep1 : unicam_isr st s1 =
      isrTrigger { isrTimestamp s1 st with
        next_frm := some b, queue := rest, dmaAddr := some b.addr } := by
    rw [unicam_isr_active st s1 hstream hsta1]
    have halias : (isrTimestamp s1 st).cur_frm = (isrTimestamp s1 st).next_frm := by
      rw [isrTimestamp_cur_frm, isrTimestamp_next_frm, hcur, hnext]
    rw [isrFrameEnd_alias s1 _ halias]
    rw [isrSchedule_pop s1 _ b rest hs1 (by rw [isrTimestamp_queue, hq]) halias]
  have h1next : (unicam_isr st s1).next_frm = some b := by
    rw [hstep1, isrTrigger_next_frm]
  have h1dma : (unicam_isr st s1).dmaAddr = some b.addr := by
    rw [hstep1, isrTrigger_dmaAddr]
  have h1cur : (unicam_isr st s1).cur_frm = some a := by
    rw [hstep1, isrTrigger_cur_frm]
    show (isrTimestamp s1 st).cur_frm = some a
    rw [isrTimestamp_cur_frm, hcur]
  have h1queue : (unicam_isr st s1).queue = rest := by
    rw [hstep1, isrTrigger_queue]
  have h1compl : (unicam_isr st s1).completions = st.completions := by
    rw [hstep1, isrTrigger_completions]
    show (isrTimestamp s1 st).completions = st.completions
    rw [isrTimestamp_completions]
  have h1seq : (unicam_isr st s1).sequence = st.sequence := by
    rw [hstep1, isrTrigger_sequence]
    show (isrTimestamp s1 st).sequence = st.sequence
    rw [isrTimestamp_sequence]
  have h1stream : (unicam_isr st s1).streaming = true := by
    rw [hstep1, isrTrigger_streaming]
    show (isrTimestamp s1 st).streaming = true
    rw [isrTimestamp_streaming, hstream]
  refine ⟨h1next, h1dma, h1cur, h1queue, h1compl, ?_, ?_⟩
  all_goals
    rw [unicam_isr_active (unicam_isr st s1) s2 h1stream hsta2]
    have h2cur : (isrTimestamp s2 (unicam_isr st s1)).cur_frm = some a := by
      rw [isrTimestamp_cur_frm, h1cur]
    have h2ne : (isrTimestamp s2 (unicam_isr st s1)).cur_frm ≠
        (isrTimestamp s2 (unicam_isr st s1)).next_frm := by
      rw [isrTimestamp_cur_frm, isrTimestamp_next_frm, h1cur, h1next]
      intro hcontra
      exact hab (Option.some.inj hcontra)
    rw [isrFrameEnd_complete s2 _ a hs2 h2cur h2ne]
  · rw [isrTrigger_cur_frm, isrSchedule_cur_frm]
    show (isrTimestamp s2 (unicam_isr st s1)).next_frm = some b
    rw [isrTimestamp_next_frm, h1next]
  · rw [isrTrigger_completions, isrSchedule_completions]
    show (isrTimestamp s2 (unicam_isr st s1)).completions ++
        [⟨a, BufState.done, some (isrTimestamp s2 (unicam_isr st s1)).sequence⟩] =
      st.completions ++ [⟨a, BufState.done, some st.sequence⟩]
    rw [isrTimestamp_completions, isrTimestamp_sequence, h1compl, h1seq]

/-- C5 witness: the concrete starved state of the counterexample, driven by
a frame-start and then a frame-end interrupt. -/
theorem c5_starvation_recovery_witness :
    (unicam_isr c5state evFrameStart).next_frm = some bufB ∧
    (unicam_isr c5state evFrameStart).dmaAddr = some bufB.addr ∧
    (unicam_isr c5state evFrameStart).cur_frm = some bufA ∧
    (unicam_isr c5state evFrameStart).queue = [] ∧
    (unicam_isr c5state evFrameStart).completions = c5state.completions ∧
    (unicam_isr (unicam_isr c5state evFrameStart) evFrameEnd).cur_frm = some bufB ∧
    (unicam_isr (unicam_isr c5state evFrameStart) evFrameEnd).completions =
      c5state.completions ++ [⟨bufA, BufState.done, some c5state.sequence⟩] :=
  c5_starvation_recovery c5state evFrameStart evFrameEnd bufA bufB []
    rfl rfl rfl rfl (by decide) (by decide) (by decide) (by decide) (by decide)

/-! ## C2: sequence numbers across dropped frames

The sequence counter `dev->sequence` is incremented exclusively in
`unicam_process_buffer_complete`; a dropped frame never advances it, so the
completions carry consecutive sequence numbers and a consumer can NOT
observe drops as sequence-number gaps. -/

/-- The done-completion sequence numbers at any reachable point are exactly
`0, 1, ..., sequence - 1`. -/
def seqInv (st : UnicamState) : Prop :=
  doneSeqs st.completions = List.range st.sequence

theorem doneSeqs_append (l1 l2 : List Completion) :
    doneSeqs (l1 ++ l2) = doneSeqs l1 ++ doneSeqs l2 :=
  List.filterMap_append l1 l2 _

theorem seqInv_isr (st : UnicamState) (s : IrqStatus) (h : seqInv st) :
    seqInv (unicam_isr st s) := by
  by_cases hstream : st.streaming = true
  · by_cases hsta : (s.pi0 || s.staOther) = true
    · rw [unicam_isr_active st s hstream hsta]
      unfold seqInv
      rw [isrTrigger_completions, isrSchedule_completions,
          isrTrigger_sequence, isrSchedule_sequence]
      rcases isrFrameEnd_shape s (isrTimestamp s st) with heq | ⟨c, _, heq⟩
      · rw [heq, isrTimestamp_completions, isrTimestamp_sequence]
        exact h
      · rw [heq]
        show doneSeqs ((isrTimestamp s st).completions ++
            [⟨c, BufState.done, some (isrTimestamp s st).sequence⟩]) =
          List.range ((isrTimestamp s st).sequence + 1)
        rw [doneSeqs_append, isrTimestamp_completions, isrTimestamp_sequence,
            List.range_succ, h]
        rfl
    · rw [unicam_isr_sta_zero st s (by revert hsta; cases (s.pi0 || s.staOther) <;> simp)]
      exact h
  · rw [unicam_isr_not_streaming st s (by revert hstream; cases st.streaming <;> simp)]
    exact h

theorem seqInv_step (st : UnicamState) (a : Act) (h : seqInv st) :
    seqInv (step st a) := by
  cases a with
  | irq s => exact seqInv_isr st s h
  | submit b => exact h

theorem seqInv_run (st : UnicamState) (acts : List Act) (h : seqInv st) :
    seqInv (run st acts) := by
  induction acts generalizing st with
  | nil => exact h
  | cons a acts ih => exact ih (step st a) (seqInv_step st a h)

/-- C2 amended: in every run of the stream (interrupts and submissions in
any order) from a freshly started stream, the sequence numbers attached to
the delivered completions are exactly `0, 1, 2, ...` — consecutive, with no
gap, regardless of how many frames were dropped by starvation. -/
theorem c2_sequence_numbers_consecutive (b : Buffer) (rest : List Buffer)
    (acts : List Act) :
    doneSeqs (run (streamStartState b rest) acts).completions =
      List.range (run (streamStartState b rest) acts).sequence :=
  seqInv_run (streamStartState b rest) acts rfl

/-- The C2 counterexample run: start with three buffers, stream two frames,
starve for two frames (both dropped), submit a fourth buffer and complete
the third. -/
def c2acts : List Act :=
  [Act.irq evFrameStart, Act.irq evFrameEnd, Act.irq evFrameStart,
   Act.irq evFrameEnd, Act.irq evFrameStart]

def c2state5 : UnicamState := run (streamStartState bufA [bufB, bufC]) c2acts

def c2state7 : UnicamState := run c2state5 [Act.irq evFrameEnd, Act.irq evFrameStart]

/-- C2 counterexample: in the run above, TWO frames are dropped between the
completion of the second buffer (sequence 1) and the completion of the third,
yet the third completion carries sequence 2 = 1 + 1, not 1 + (2 + 1): dropped
frames do not skip sequence numbers, so the gap the claim promises does not
exist. -/
theorem c2_sequence_gap_counterexample :
    frameDropped c2state5 evFrameEnd = true ∧
    frameDropped c2state7 evFrameEnd = true ∧
    (run c2state7 [Act.irq evFrameEnd, Act.submit bufD, Act.irq evFrameStart,
        Act.irq evFrameEnd]).completions =
      [⟨bufA, BufState.done, some 0⟩, ⟨bufB, BufState.done, some 1⟩,
       ⟨bufC, BufState.done, some 2⟩] ∧
    (2 : Nat) ≠ 1 + (2 + 1) := by
  refine ⟨rfl, rfl, rfl, by decide⟩

/-! ## C6: stop reconciles every held buffer exactly once -/

/-- How many times buffer `x` is completed with the `ERROR` tag in a trace. -/
def errCount (x : Buffer) (l : List Completion) : Nat :=
  l.countP fun cp => decide (cp.buf = x ∧ cp.bstate = BufState.error)

theorem errCount_append (x : Buffer) (l1 l2 : List Completion) :
    errCount x (l1 ++ l2) = errCount x l1 + errCount x l2 :=
  List.countP_append _ l1 l2

theorem errCount_map (x : Buffer) (l : List Buffer) :
    errCount x (l.map fun b => Completion.mk b BufState.error none) = l.count x := by
  induction l with
  | nil => rfl
  | cons a t ih =>
    simp only [List.map_cons, errCount, List.countP_cons, List.count_cons] at *
    rw [ih]
    by_cases hax : a = x
    · simp [hax]
    · simp [hax]

theorem errCount_single (x c : Buffer) :
    errCount x [Completion.mk c BufState.error none] = if c = x then 1 else 0 := by
  by_cases hcx : c = x
  · simp [errCount, hcx]
  · simp [errCount, hcx]

theorem errCount_pair (x c n : Buffer) :
    errCount x [Completion.mk c BufState.error none,
                Completion.mk n BufState.error none] =
      (if c = x then 1 else 0) + (if n = x then 1 else 0) := by
  by_cases hcx : c = x <;> by_cases hnx : n = x <;> simp [errCount, hcx, hnx]

/-- C6: stopping an active stream completes, with the `ERROR` tag, the
buffer in `current`, the buffer in `next` when distinct from `current`, and
every buffer still on the queue — each of them exactly once (in particular a
single aliased `current == next` buffer gets exactly one completion), and
nothing else is completed; the queue and both slots are left empty.  The
no-aliasing hypotheses (`Nodup`, `c ∉ queue`, `n ∉ queue`) reflect vb2
buffer ownership: a held buffer is never simultaneously queued. -/
theorem c6_stop_reconciliation (st : UnicamState) (c n : Buffer)
    (hcur : st.cur_frm = some c) (hnext : st.next_frm = some n)
    (hcompl : st.completions = [])
    (hnd : st.queue.Nodup) (hcq : c ∉ st.queue) (hnq : n ∉ st.queue) :
    (∀ x, x = c ∨ x = n ∨ x ∈ st.queue →
      errCount x (unicam_stop_streaming st).completions = 1) ∧
    (∀ cp ∈ (unicam_stop_streaming st).completions,
      cp.bstate = BufState.error ∧ (cp.buf = c ∨ cp.buf = n ∨ cp.buf ∈ st.queue)) ∧
    (unicam_stop_streaming st).queue = [] ∧
    (unicam_stop_streaming st).cur_frm = none ∧
    (unicam_stop_streaming st).next_frm = none := by
  have hhead : (unicam_stop_streaming st).completions =
      (st.queue.map fun b => Completion.mk b BufState.error none) ++
        (if c = n then [Completion.mk c BufState.error none]
         else [Completion.mk c BufState.error none, Completion.mk n BufState.error none]) := by
    unfold unicam_stop_streaming
    rw [hcur, hnext, hcompl]
    by_cases hcn : c = n
    · subst hcn
      simp
    · rw [if_neg (by intro hc; exact hcn (Option.some.inj hc)), if_neg hcn]
      simp
  refine ⟨?_, ?_, rfl, rfl, rfl⟩
  · intro x hx
    rw [hhead, errCount_append, errCount_map]
    by_cases hcn : c = n
    · subst hcn
      rw [if_pos rfl, errCount_single]
      rcases hx with hx | hx | hx
      · subst hx
        rw [List.count_eq_zero.mpr hcq, if_pos rfl]
      · subst hx
        rw [List.count_eq_zero.mpr hcq, if_pos rfl]
      · rw [List.count_eq_one_of_mem hnd hx,
            if_neg (by intro hc; subst hc; exact hcq hx)]
    · rw [if_neg hcn, errCount_pair]
      rcases hx with hx | hx | hx
      · subst hx
        rw [List.count_eq_zero.mpr hcq, if_pos rfl,
            if_neg (fun hc => hcn hc.symm)]
      · subst hx
        rw [List.count_eq_zero.mpr hnq, if_neg hcn, if_pos rfl]
      · rw [List.count_eq_one_of_mem hnd hx,
            if_neg (by intro hc; subst hc; exact hcq hx),
            if_neg (by intro hc; subst hc; exact hnq hx)]
  · intro cp hcp
    rw [hhead] at hcp
    by_cases hcn : c = n
    · rw [if_pos hcn] at hcp
      rcases List.mem_append.mp hcp with hcp | hcp
      · obtain ⟨b, hb, rfl⟩ := List.mem_map.mp hcp
        exact ⟨rfl, Or.inr (Or.inr hb)⟩
      · have : cp = Completion.mk c BufState.error none := List.mem_singleton.mp hcp
        subst this
        exact ⟨rfl, Or.inl rfl⟩
    · rw [if_neg hcn] at hcp
      rcases List.mem_append.mp hcp with hcp | hcp
      · obtain ⟨b, hb, rfl⟩ := List.mem_map.mp hcp
        exact ⟨rfl, Or.inr (Or.inr hb)⟩
      · rcases List.mem_cons.mp hcp with hcp | hcp
        · subst hcp
          exact ⟨rfl, Or.inl rfl⟩
        · have : cp = Completion.mk n BufState.error none := List.mem_singleton.mp hcp
          subst this
          exact ⟨rfl, Or.inr (Or.inl rfl)⟩

/-- C6 witness: the spec scenario — one buffer queued, one aliased in
`current == next`; both come back exactly once, tagged `ERROR`. -/
def c6state : UnicamState :=
  { streaming := true, cur_frm := some bufA, next_frm := some bufA, queue := [bufB]
    sequence := 2, completions := [], dmaAddr := some 1000, lastTs := none
    triggerMode := false }

theorem c6_stop_reconciliation_witness :
    errCount bufA (unicam_stop_streaming c6state).completions = 1 ∧
    errCount bufB (unicam_stop_streaming c6state).completions = 1 :=
  ⟨(c6_stop_reconciliation c6state bufA bufA rfl rfl rfl (by decide) (by decide)
      (by decide)).1 bufA (Or.inl rfl),
   (c6_stop_reconciliation c6state bufA bufA rfl rfl rfl (by decide) (by decide)
      (by decide)).1 bufB (Or.inr (Or.inr (by decide)))⟩

/-! ## C7: ambiguous-format resolution consults the source -/

theorem check_mbus_from_sound (enum : SubdevEnum) (code : Nat) :
    ∀ fuel i, check_mbus_from enum code fuel i = true →
      ∃ j, i ≤ j ∧ j < i + fuel ∧ enum j = Except.ok code := by
  intro fuel
  induction fuel with
  | zero => intro i h; exact absurd h (by simp [check_mbus_from])
  | succ fuel ih =>
    intro i h
    unfold check_mbus_from at h
    split at h
    · rename_i c heq
      by_cases hc : c = code
      · exact ⟨i, Nat.le_refl i, by omega, by rw [heq, hc]⟩
      · rw [if_neg hc] at h
        obtain ⟨j, hj1, hj2, hj3⟩ := ih (i + 1) h
        exact ⟨j, by omega, by omega, hj3⟩
    · exact absurd h (by simp)

theorem find_format_by_pix_from_variants (enum : SubdevEnum) (pix : Nat) :
    ∀ l f, find_format_by_pix_from enum pix l = some f →
      f.check_variants = true → check_mbus_format enum f = true := by
  intro l
  induction l with
  | nil => intro f h; exact absurd h (by simp [find_format_by_pix_from])
  | cons g rest ih =>
    intro f h hvar
    unfold find_format_by_pix_from at h
    split at h
    · split at h
      · exact ih f h hvar
      · next hskip =>
        have hgf : g = f := Option.some.inj h
        subst hgf
        cases hchk : check_mbus_format enum g with
        | true => rfl
        | false => exact absurd ⟨hvar, hchk⟩ hskip
    · exact ih f h hvar

/-- The C7 scenario table: two entries with the same output pixel code, both
flagged ambiguous, differing only in their transport code. -/
def c7entry1 : UnicamFmt := ⟨700, 0, 801, 16, 0x1e, true⟩

def c7entry2 : UnicamFmt := ⟨700, 0, 802, 16, 0x1e, true⟩

/-- A source that enumerates only the SECOND entry's transport code. -/
def c7enum : SubdevEnum := fun i => if i = 0 then Except.ok 802 else Except.error (-22)

/-- C7: an entry with `check_variants` set is returned by the pixel-format
lookup only if the source, queried for at most `MAX_ENUM_MBUS_CODE` (128)
indices, produced exactly that entry's media-bus code; and on a table with
two ambiguous entries for the same pixel code where the source enumerates
only the second entry's transport code, the lookup returns the second
entry, not the first. -/
theorem c7_ambiguous_resolution (enum : SubdevEnum) (pix : Nat) (f : UnicamFmt)
    (hfind : find_format_by_pix enum pix = some f)
    (hvar : f.check_variants = true) :
    (∃ j, j < MAX_ENUM_MBUS_CODE ∧ enum j = Except.ok f.code) ∧
    find_format_by_pix_from c7enum 700 [c7entry1, c7entry2] = some c7entry2 := by
  constructor
  · have hchk := find_format_by_pix_from_variants enum pix formats f hfind hvar
    obtain ⟨j, _, hj2, hj3⟩ :=
      check_mbus_from_sound enum f.code MAX_ENUM_MBUS_CODE 0 hchk
    exact ⟨j, by omega, hj3⟩
  · rfl

/-- C7 witness: looking up `V4L2_PIX_FMT_YUYV` (an ambiguous entry) against
a source that produces `MEDIA_BUS_FMT_YUYV8_2X8`. -/
def c7wEnum : SubdevEnum := fun _ => Except.ok MEDIA_BUS_FMT_YUYV8_2X8

def c7wFmt : UnicamFmt := ⟨V4L2_PIX_FMT_YUYV, 0, MEDIA_BUS_FMT_YUYV8_2X8, 16, 0x1e, true⟩

theorem c7_ambiguous_resolution_witness :
    (∃ j, j < MAX_ENUM_MBUS_CODE ∧ c7wEnum j = Except.ok c7wFmt.code) ∧
    find_format_by_pix_from c7enum 700 [c7entry1, c7entry2] = some c7entry2 :=
  c7_ambiguous_resolution c7wEnum V4L2_PIX_FMT_YUYV c7wFmt rfl rfl

/-! ## C10: the unbounded enumeration loop of `get_first_supported_format` -/

/-- A source that forever returns a media-bus code the registry supports. -/
def c10okEnum : SubdevEnum := fun _ => Except.ok MEDIA_BUS_FMT_YUYV8_2X8

/-- C10 counterexample: `get_first_supported_format` also terminates WITHOUT
the source ever returning `-EINVAL` or `-ENOIOCTLCMD`: a source that forever
returns a registry-supported code makes it return that format at the first
index (so "terminates only if the source eventually returns one of the two
designated exhaustion errors" is too strong). -/
theorem c10_termination_counterexample :
    get_first_supported_format_fuel c10okEnum 1 0 0 =
      some (some ⟨V4L2_PIX_FMT_YUYV, 0, MEDIA_BUS_FMT_YUYV8_2X8, 16, 0x1e, true⟩) ∧
    (∀ j, c10okEnum j = Except.ok MEDIA_BUS_FMT_YUYV8_2X8) :=
  ⟨by decide, fun _ => rfl⟩

/-- C10 amended: the loop has no iteration bound (no `MAX_ENUM_MBUS_CODE`
cap): against a source whose codes never match the registry and whose errors
are never `-EINVAL`/`-ENOIOCTLCMD`, it does not terminate within ANY number
of iterations, from any start index and any initial value of the
uninitialised `ret`; and because `ret` is read before its first assignment,
an indeterminate initial value of `-EINVAL` makes the loop exit immediately
without querying the source at all. -/
theorem c10_unbounded_enumeration (enum : SubdevEnum)
    (hcode : ∀ i c, enum i = Except.ok c → find_format_by_code c = none)
    (herr : ∀ i e, enum i = Except.error e → e ≠ -22 ∧ e ≠ -515) :
    (∀ fuel j ret, ret ≠ -22 → ret ≠ -515 →
      get_first_supported_format_fuel enum fuel j ret = none) ∧
    (∀ fuel j, get_first_supported_format_fuel enum (fuel + 1) j (-22) = some none) := by
  constructor
  · intro fuel
    induction fuel with
    | zero => intro j ret _ _; rfl
    | succ fuel ih =>
      intro j ret h22 h515
      unfold get_first_supported_format_fuel
      rw [if_neg (by intro h; rcases h with h | h; exact h22 h; exact h515 h)]
      split
      · rename_i e heq
        exact ih (j + 1) e (herr j e heq).1 (herr j e heq).2
      · rename_i c heq
        rw [hcode j c heq]
        exact ih (j + 1) 0 (by decide) (by decide)
  · intro fuel j
    unfold get_first_supported_format_fuel
    rw [if_pos (Or.inl rfl)]

/-- C10 witness: a source that forever returns the unsupported code 999. -/
def c10wEnum : SubdevEnum := fun _ => Except.ok 999

theorem c10_unbounded_enumeration_witness :
    get_first_supported_format_fuel c10wEnum 3 0 0 = none ∧
    get_first_supported_format_fuel c10wEnum 1 0 (-22) = some none :=
  ⟨(c10_unbounded_enumeration c10wEnum
      (by intro i c h; cases h; decide)
      (by intro i e h; cases h)).1 3 0 0 (by decide) (by decide),
   (c10_unbounded_enumeration c10wEnum
      (by intro i c h; cases h; decide)
      (by intro i e h; cases h)).2 0 0⟩

/-! ## C8/C9: stride selection and layout alignment -/

theorem le_ALIGN_bpl (x : Nat) : x ≤ ALIGN x BPL_ALIGNMENT := by
  unfold ALIGN BPL_ALIGNMENT
  omega

theorem ALIGN_bpl_mod (x : Nat) : ALIGN x BPL_ALIGNMENT % BPL_ALIGNMENT = 0 := by
  unfold ALIGN BPL_ALIGNMENT
  omega

theorem ALIGN_bpl_of_aligned (x : Nat) (h : x % BPL_ALIGNMENT = 0) :
    ALIGN x BPL_ALIGNMENT = x := by
  unfold ALIGN BPL_ALIGNMENT at *
  omega

/-- The `bytesperline` that `unicam_calc_format_size_bpl` produces, spelled
out: the requested stride aligned up when it exceeds the computed minimum
and fits `MAX_BYTESPERLINE`, else the computed minimum. -/
theorem calc_bpl_eq (fmt : UnicamFmt) (f : PixFormat) :
    (unicam_calc_format_size_bpl fmt f).bytesperline =
      if bytes_per_line (bound_width f.width) fmt f.pixelformat < f.bytesperline ∧
          f.bytesperline ≤ MAX_BYTESPERLINE then
        ALIGN f.bytesperline BPL_ALIGNMENT
      else
        bytes_per_line (bound_width f.width) fmt f.pixelformat := rfl

/-- The clamped width `unicam_calc_format_size_bpl` settles on. -/
theorem calc_width_eq (fmt : UnicamFmt) (f : PixFormat) :
    (unicam_calc_format_size_bpl fmt f).width = bound_width f.width := rfl

/-- The SBGGR8 entry of the `formats[]` table, used as the C8 scenario. -/
def c8fmt : UnicamFmt := ⟨V4L2_PIX_FMT_SBGGR8, 0, MEDIA_BUS_FMT_SBGGR8_1X8, 8, 0x2a, false⟩

/-- C8 counterexample: width 32 at 8 bpp gives a computed minimum stride of
32; a requested stride of 40 is in range (strictly between the minimum and
the maximum) but NOT alignment-compliant, and the result is 48 — the request
aligned UP — which is neither the requested stride (as the in-range aligned
case would give) nor the computed minimum (which the claim demands for every
other case). -/
theorem c8_stride_counterexample :
    (unicam_calc_format_size_bpl c8fmt
      { width := 32, height := 32, pixelformat := V4L2_PIX_FMT_SBGGR8,
        bytesperline := 40, sizeimage := 0 }).bytesperline = 48 ∧
    bytes_per_line 32 c8fmt V4L2_PIX_FMT_SBGGR8 = 32 ∧
    (48 : Nat) ≠ 40 ∧ (48 : Nat) ≠ 32 := by
  refine ⟨by decide, by decide, by decide, by decide⟩

/-- C8 amended: the resulting bytes-per-line equals the requested stride
aligned up to `BPL_ALIGNMENT` whenever the request lies strictly above the
computed minimum and at most (not strictly below) the maximum representable
stride — in particular it equals the request exactly when the request is
already aligned — and equals the computed minimum (which `bytes_per_line`
doubles to 16 bpp when the active format repacks) in every other case. -/
theorem c8_stride_selection (fmt : UnicamFmt) (f : PixFormat) :
    (bytes_per_line (bound_width f.width) fmt f.pixelformat < f.bytesperline →
      f.bytesperline ≤ MAX_BYTESPERLINE →
      f.bytesperline % BPL_ALIGNMENT = 0 →
      (unicam_calc_format_size_bpl fmt f).bytesperline = f.bytesperline) ∧
    (bytes_per_line (bound_width f.width) fmt f.pixelformat < f.bytesperline →
      f.bytesperline ≤ MAX_BYTESPERLINE →
      (unicam_calc_format_size_bpl fmt f).bytesperline =
        ALIGN f.bytesperline BPL_ALIGNMENT) ∧
    (¬(bytes_per_line (bound_width f.width) fmt f.pixelformat < f.bytesperline ∧
        f.bytesperline ≤ MAX_BYTESPERLINE) →
      (unicam_calc_format_size_bpl fmt f).bytesperline =
        bytes_per_line (bound_width f.width) fmt f.pixelformat) := by
  refine ⟨?_, ?_, ?_⟩
  · intro h1 h2 h3
    rw [calc_bpl_eq, if_pos ⟨h1, h2⟩, ALIGN_bpl_of_aligned _ h3]
  · intro h1 h2
    rw [calc_bpl_eq, if_pos ⟨h1, h2⟩]
  · intro h
    rw [calc_bpl_eq, if_neg h]

/-- C8 witness: the aligned in-range request 48 is honoured exactly. -/
theorem c8_stride_selection_witness :
    (unicam_calc_format_size_bpl c8fmt
      { width := 32, height := 32, pixelformat := V4L2_PIX_FMT_SBGGR8,
        bytesperline := 48, sizeimage := 0 }).bytesperline = 48 :=
  (c8_stride_selection c8fmt
    { width := 32, height := 32, pixelformat := V4L2_PIX_FMT_SBGGR8,
      bytesperline := 48, sizeimage := 0 }).1 (by decide) (by decide) (by decide)

/-- C9: for every width in `[MIN_WIDTH, MAX_WIDTH]`, every registered format
and every requested stride, the computed `bytesperline` is a multiple of the
alignment constant 16, is at least the computed per-line minimum for the
(evenly rounded) width at the format's depth, and at least two bytes per
pixel when the request selects the repacked layout; the settled width is the
requested one rounded down to an even boundary. -/
theorem c9_layout_alignment (fmt : UnicamFmt) (f : PixFormat)
    (hmem : fmt ∈ formats)
    (hw1 : MIN_WIDTH ≤ f.width) (hw2 : f.width ≤ MAX_WIDTH) :
    (unicam_calc_format_size_bpl fmt f).bytesperline % BPL_ALIGNMENT = 0 ∧
    bytes_per_line (unicam_calc_format_size_bpl fmt f).width fmt f.pixelformat ≤
      (unicam_calc_format_size_bpl fmt f).bytesperline ∧
    (f.pixelformat ≠ fmt.repacked_fourcc →
      (unicam_calc_format_size_bpl fmt f).width * fmt.depth / 8 ≤
        (unicam_calc_format_size_bpl fmt f).bytesperline) ∧
    (f.pixelformat = fmt.repacked_fourcc →
      (unicam_calc_format_size_bpl fmt f).width * 2 ≤
        (unicam_calc_format_size_bpl fmt f).bytesperline) ∧
    (unicam_calc_format_size_bpl fmt f).width = f.width - f.width % 2 := by
  have hwidth : (unicam_calc_format_size_bpl fmt f).width = f.width - f.width % 2 := by
    rw [calc_width_eq]
    unfold bound_width
    rw [Nat.max_eq_left hw1, Nat.min_eq_left hw2]
  have hminle : bytes_per_line (bound_width f.width) fmt f.pixelformat ≤
      (unicam_calc_format_size_bpl fmt f).bytesperline := by
    rw [calc_bpl_eq]
    split
    · next h => exact Nat.le_trans (Nat.le_of_lt h.1) (le_ALIGN_bpl _)
    · exact Nat.le_refl _
  have hmod : (unicam_calc_format_size_bpl fmt f).bytesperline % BPL_ALIGNMENT = 0 := by
    rw [calc_bpl_eq]
    split
    · exact ALIGN_bpl_mod _
    · unfold bytes_per_line
      split <;> exact ALIGN_bpl_mod _
  have hminw : (unicam_calc_format_size_bpl fmt f).width = bound_width f.width :=
    calc_width_eq fmt f
  refine ⟨hmod, by rw [hminw]; exact hminle, ?_, ?_, hwidth⟩
  · intro hne
    rw [hminw]
    refine Nat.le_trans ?_ hminle
    unfold bytes_per_line
    rw [if_neg hne]
    exact le_ALIGN_bpl _
  · intro heq
    rw [hminw]
    refine Nat.le_trans ?_ hminle
    unfold bytes_per_line
    rw [if_pos heq]
    exact le_ALIGN_bpl _

/-- C9 witness: width 640 in SBGGR8 with no stride request. -/
theorem c9_layout_alignment_witness :
    (unicam_calc_format_size_bpl c8fmt
      { width := 640, height := 480, pixelformat := V4L2_PIX_FMT_SBGGR8,
        bytesperline := 0, sizeimage := 0 }).bytesperline % BPL_ALIGNMENT = 0 ∧
    bytes_per_line
      (unicam_calc_format_size_bpl c8fmt
        { width := 640, height := 480, pixelformat := V4L2_PIX_FMT_SBGGR8,
          bytesperline := 0, sizeimage := 0 }).width c8fmt V4L2_PIX_FMT_SBGGR8 ≤
      (unicam_calc_format_size_bpl c8fmt
        { width := 640, height := 480, pixelformat := V4L2_PIX_FMT_SBGGR8,
          bytesperline := 0, sizeimage := 0 }).bytesperline := by
  have h := c9_layout_alignment c8fmt
    { width := 640, height := 480, pixelformat := V4L2_PIX_FMT_SBGGR8,
      bytesperline := 0, sizeimage := 0 } (by decide) (by decide) (by decide)
  exact ⟨h.1, h.2.1⟩

end Unicam
